import Mathlib

/-!
# Verification of the Own-Words-Wiz state store and sync layer

A shallow embedding of the state-management core of `src/services/mockBackend.ts`
(class `GameService`), together with the relevant UI-side callers
(`src/views/TeacherDashboard.tsx`, `src/views/StudentView.tsx`), and proofs of
the behavioural claims about it.

Modelling conventions:
* The JS record `Record<string, StudentResponse>` is embedded as the partial
  map `String → Option StudentResponse`; the object-spread override
  `{ ...students, [id]: response }` becomes a pointwise function update.
* `Date.now()` and `Math.random().toString(36).substr(2, 5)` are impure inputs
  of the event being processed; they are passed as explicit parameters
  (`now : Nat`, `rand : String`) to the operations that read them.
* `null` / absent optional fields become `Option`; numbers that the code treats
  as integers (`maxScore`, scores) become `Int`; timestamps become `Nat`.
-/

namespace OwnWordsWiz

/-- `StudentResponse` from `src/types.ts`: one submitted answer. -/
structure StudentResponse where
  id : String
  studentName : String
  text : String
  submittedAt : Nat
  score : Option Int
  aiFeedback : Option String
  aiSuggestedScore : Option Int
deriving DecidableEq

/-- The `type` tag of `GameState.projectorDisplay` (`'prompt' | 'answer'`). -/
inductive DisplayType where
  | prompt
  | answer
deriving DecidableEq

/-- `GameState.projectorDisplay` from `src/types.ts`. -/
structure ProjectorDisplay where
  type : DisplayType
  contentId : Option String
deriving DecidableEq

/-- The `students` record of `GameState`, as a partial map from response id. -/
def Students : Type := String → Option StudentResponse

/-- The empty `students` record `{}`. -/
def emptyStudents : Students := fun _ => none

/-- Object-spread override `{ ...m, [id]: r }` on the `students` record. -/
def setStudent (m : Students) (id : String) (r : StudentResponse) : Students :=
  fun k => if k = id then some r else m k

/-- `GameState` from `src/types.ts`: the authoritative session document. -/
structure GameState where
  roomCode : Option String
  prompt : String
  maxScore : Int
  isAcceptingAnswers : Bool
  students : Students
  projectorDisplay : ProjectorDisplay

/-- `initialState` from `src/services/mockBackend.ts` (lines 15–21). -/
def initialState : GameState :=
  { roomCode := none
    prompt := ""
    maxScore := 2
    isAcceptingAnswers := false
    students := emptyStudents
    projectorDisplay := { type := DisplayType.prompt, contentId := none } }

/-- The `STORAGE_KEY` constant of `mockBackend.ts`. -/
def STORAGE_KEY : String := "own_words_wiz_state"

/-- `NetworkMessage` from `src/types.ts`, plus the `RESET_FORM` message that
`resetRound` broadcasts (sent `as any`, outside the declared union). -/
inductive NetworkMessage where
  | syncState (payload : GameState)
  | submitAnswer (name : String) (text : String)
  | joinRequest (name : String)
  | resetForm

/-- One character of the JS sanitisation `.replace(/[^a-z0-9]/g, '-')`
(applied after `toLowerCase()`). -/
def sanitizeChar (c : Char) : Char :=
  if (('a' ≤ c ∧ c ≤ 'z') ∨ ('0' ≤ c ∧ c ≤ '9')) then c else '-'

/-- `studentName.toLowerCase().replace(/[^a-z0-9]/g, '-')` from
`addAnswerInternal` (mockBackend.ts line 377), character by character. -/
def sanitizeName (name : String) : String :=
  String.mk ((name.data.map Char.toLower).map sanitizeChar)

/-- The response id built in `addAnswerInternal` (line 377):
sanitised name, `Date.now()`, and a 5-character random suffix, joined by
hyphens. -/
def makeResponseId (name : String) (now : Nat) (rand : String) : String :=
  sanitizeName name ++ "-" ++ toString now ++ "-" ++ rand

/-- `GameService.addAnswerInternal` (mockBackend.ts lines 376–392): builds a
fresh `StudentResponse` with `score: null` and inserts it under the generated
id; returns the new state and the id (the TS method returns the id). -/
def addAnswerInternal (s : GameState) (studentName text : String)
    (now : Nat) (rand : String) : GameState × String :=
  let id := makeResponseId studentName now rand
  let response : StudentResponse :=
    { id := id
      studentName := studentName
      text := text
      submittedAt := now
      score := none
      aiFeedback := none
      aiSuggestedScore := none }
  ({ s with students := setStudent s.students id response }, id)

/-- `GameService.handleMessage` (mockBackend.ts lines 340–348): returns
immediately unless this instance is the host; on `SUBMIT_ANSWER` applies
`addAnswerInternal`, every other message is ignored. -/
def handleMessage (isHost : Bool) (s : GameState) (msg : NetworkMessage)
    (now : Nat) (rand : String) : GameState :=
  match isHost, msg with
  | false, _ => s
  | true, NetworkMessage.submitAnswer name text =>
      (addAnswerInternal s name text now rand).1
  | true, _ => s

/-- JS `String.prototype.trim()`: strip leading and trailing whitespace.
Embedded directly over the character list so that it evaluates by kernel
reduction. -/
def jsTrim (s : String) : String :=
  String.mk
    (((s.data.dropWhile Char.isWhitespace).reverse.dropWhile Char.isWhitespace).reverse)

/-- `GameService.setPrompt` (mockBackend.ts lines 395–404): overwrites prompt
and maxScore exactly as given, sets accepting `true`, display back to the
prompt view. -/
def setPrompt (s : GameState) (prompt : String) (maxScore : Int) : GameState :=
  { s with
      prompt := prompt
      maxScore := maxScore
      isAcceptingAnswers := true
      projectorDisplay := { type := DisplayType.prompt, contentId := none } }

/-- `handleSetPrompt` from `src/views/TeacherDashboard.tsx` (lines 71–76): the
UI caller of `setPrompt`; bails out on a blank prompt and clamps the max score
with `Math.max(1, newMaxScore)` before calling the mutator. -/
def handleSetPrompt (s : GameState) (newPrompt : String) (newMaxScore : Int) :
    GameState :=
  if jsTrim newPrompt = "" then s
  else setPrompt s newPrompt (max 1 newMaxScore)

/-- `GameService.resetRound` (mockBackend.ts lines 406–423), state part:
clears all answers, re-opens submissions, shows the prompt again.
(The `RESET_FORM` broadcasts it also performs do not touch host state.) -/
def resetRound (s : GameState) : GameState :=
  { s with
      students := emptyStudents
      isAcceptingAnswers := true
      projectorDisplay := { type := DisplayType.prompt, contentId := none } }

/-- `GameService.toggleAccepting` (mockBackend.ts lines 425–428). -/
def toggleAccepting (s : GameState) (accepting : Bool) : GameState :=
  { s with isAcceptingAnswers := accepting }

/-- `GameService.setProjectorView` (mockBackend.ts lines 430–436). -/
def setProjectorView (s : GameState) (type : DisplayType)
    (answerId : Option String) : GameState :=
  { s with projectorDisplay := { type := type, contentId := answerId } }

/-- `GameService.updateStudentScore` (mockBackend.ts lines 438–449): update a
single response's `score` in place; the check `if (this.state.students[id])`
makes it a no-op when the id is absent. -/
def updateStudentScore (s : GameState) (id : String) (score : Int) : GameState :=
  match s.students id with
  | some r =>
      let r2 : StudentResponse := { r with score := some score }
      { s with students := setStudent s.students id r2 }
  | none => s

/-- `GameService.updateStudentAiData` (mockBackend.ts lines 451–462): same
guarded shape as `updateStudentScore`, but writes only the two advisory AI
fields. -/
def updateStudentAiData (s : GameState) (id : String) (score : Int)
    (feedback : String) : GameState :=
  match s.students id with
  | some r =>
      let r2 : StudentResponse :=
        { r with aiSuggestedScore := some score, aiFeedback := some feedback }
      { s with students := setStudent s.students id r2 }
  | none => s

/-- Step 2 of `GameService.startNewClass` (mockBackend.ts lines 141–145):
`this.state = { ...initialState, roomCode: undefined }`. -/
def startNewClassState (_s : GameState) : GameState :=
  { initialState with roomCode := none }

/-- The room-code choice of `GameService.startHosting` (mockBackend.ts
line 173): `this.state.roomCode || <random 4-char code>`; JS `||` falls
through on `undefined` and on the empty string. `fresh` stands for the
freshly drawn `Math.random().toString(36).substring(2, 6).toUpperCase()`. -/
def hostCode (s : GameState) (fresh : String) : String :=
  match s.roomCode with
  | some c => if c = "" then fresh else c
  | none => fresh

/-- The state effect of `GameService.startHosting` (mockBackend.ts
lines 167–177): `this.state = { ...this.state, roomCode: code }`. -/
def startHosting (s : GameState) (fresh : String) : GameState :=
  { s with roomCode := some (hostCode s fresh) }

/-- `GameService.startNewClass` (mockBackend.ts lines 130–150), state part:
reset the document with no room code, then restart hosting (which therefore
takes the fresh code). -/
def startNewClass (s : GameState) (fresh : String) : GameState :=
  startHosting (startNewClassState s) fresh

/-- The submit guard of `handleSubmit` in `src/views/StudentView.tsx`
(lines 65–75): `if (!answer.trim()) return;` — the student UI sends the
answer only when this is `true`. -/
def handleSubmitSends (answer : String) : Bool :=
  !(jsTrim answer = "")

/-- A follower as observed locally: the replicated document plus the
in-progress draft text of the answer form. -/
structure FollowerView where
  state : GameState
  draft : String

/-- Modelled from the spec: the effect of a reset notification on the
follower UI is missing from `src/` (the `subscribeReset` hook exists in
`mockBackend.ts` but no view registers a listener); per the spec the
`RESET_FORM` signal tells "the follower's local UI to discard any
in-progress unsent draft", so the notification clears the draft. -/
def onResetNotify (_draft : String) : String := ""

/-- The follower's `conn.on('data')` handler inside `GameService.joinGame`
(mockBackend.ts lines 296–306): `SYNC_STATE` unconditionally overwrites the
local replica; `RESET_FORM` fires the reset notification (draft clear); any
other message leaves the follower untouched. -/
def followerReceive (v : FollowerView) (msg : NetworkMessage) : FollowerView :=
  match msg with
  | NetworkMessage.syncState payload => { v with state := payload }
  | NetworkMessage.resetForm => { v with draft := onResetNotify v.draft }
  | _ => v

/-- The `storage` event listener installed in the `GameService` constructor
(mockBackend.ts lines 47–55): when the key matches and a new value is present,
a non-host replaces its whole document with the stored one; a host ignores
the event. -/
def storageEventApply (isHost : Bool) (s : GameState) (key : String)
    (newValue : Option GameState) : GameState :=
  if key = STORAGE_KEY then
    match newValue with
    | some doc => if isHost then s else doc
    | none => s
  else s

/-! ## Helper lemmas and witness fixtures -/

/-- Appending on the left is cancellable for strings. -/
theorem string_append_cancel_left :
    ∀ (s t u : String), s ++ t = s ++ u → t = u
  | String.mk a, String.mk b, String.mk c, h => by
    apply congrArg String.mk
    have h2 : a ++ b = a ++ c := congrArg String.data h
    exact List.append_cancel_left h2

/-- A concrete graded response used as a witness fixture. -/
def wResp : StudentResponse :=
  { id := "a"
    studentName := "Alex"
    text := "hi"
    submittedAt := 5
    score := some 1
    aiFeedback := none
    aiSuggestedScore := none }

/-- A concrete host state holding `wResp`, used as a witness fixture. -/
def wState : GameState :=
  { initialState with students := setStudent emptyStudents "a" wResp }

/-- A concrete state with an assigned room code, used as a witness fixture. -/
def wHostState : GameState :=
  { initialState with roomCode := some "AAAA" }

/-! ## Claims -/

/-- C1, counterexample: `setPrompt` itself does not clamp — called with
max-score 0 it stores max-score 0, which is below 1. -/
theorem setPrompt_no_clamp_at_zero :
    (setPrompt initialState "x" 0).maxScore = 0 ∧
    ¬ (1 ≤ (setPrompt initialState "x" 0).maxScore) := by
  decide

/-- C1, amended: for every text and integer maxScore, `setPrompt` itself sets
the prompt, stores the max-score exactly as given (no clamping), sets
accepting to true and resets the display to showing-prompt; the clamping to
at least 1 happens in the UI caller `handleSetPrompt`, which passes
`max 1 maxScore` whenever the trimmed prompt is non-blank. -/
theorem setPrompt_fields_and_ui_clamp (s : GameState) (text : String) (m : Int) :
    (setPrompt s text m).prompt = text ∧
    (setPrompt s text m).maxScore = m ∧
    (setPrompt s text m).isAcceptingAnswers = true ∧
    (setPrompt s text m).projectorDisplay =
      { type := DisplayType.prompt, contentId := none } ∧
    (jsTrim text ≠ "" → (handleSetPrompt s text m).maxScore = max 1 m) := by
  refine ⟨rfl, rfl, rfl, rfl, ?_⟩
  intro h
  unfold handleSetPrompt
  rw [if_neg h]
  rfl

/-- C1, witness: the amended theorem evaluated at prompt `"x"` and
max-score 0. -/
theorem setPrompt_fields_and_ui_clamp_witness :
    jsTrim "x" ≠ "" ∧
    (handleSetPrompt initialState "x" 0).maxScore = max 1 0 ∧
    (setPrompt initialState "x" 0).maxScore = 0 :=
  ⟨by decide,
   (setPrompt_fields_and_ui_clamp initialState "x" 0).2.2.2.2 (by decide),
   (setPrompt_fields_and_ui_clamp initialState "x" 0).2.1⟩

/-- C2, counterexample: a submission with empty text is not ignored —
`addAnswerInternal` adds a Response entry for it, changing the document. -/
theorem addAnswer_empty_text_recorded :
    initialState.students (makeResponseId "Alex" 5 "abcde") = none ∧
    ((addAnswerInternal initialState "Alex" "" 5 "abcde").1.students
        (makeResponseId "Alex" 5 "abcde")).isSome = true := by
  decide

/-- C2, amended: `addAnswerInternal` performs no emptiness check — for every
text, the empty text included, it adds a fresh Response with that text and a
null score under the generated id; the empty-text gate exists only in the
student UI, whose submit handler does not send when the trimmed answer is
empty. -/
theorem addAnswer_records_any_text (s : GameState) (name text : String)
    (now : Nat) (rand : String) :
    (addAnswerInternal s name text now rand).1.students
        (makeResponseId name now rand) =
      some { id := makeResponseId name now rand
             studentName := name
             text := text
             submittedAt := now
             score := none
             aiFeedback := none
             aiSuggestedScore := none } ∧
    handleSubmitSends "" = false := by
  constructor
  · simp [addAnswerInternal, setStudent]
  · decide

/-- C3: when the id is absent from the Response mapping, both
`updateStudentScore` and `updateStudentAiData` return the state document
itself, unchanged. -/
theorem update_absent_id_noop (s : GameState) (id : String) (score : Int)
    (feedback : String) (h : s.students id = none) :
    updateStudentScore s id score = s ∧
    updateStudentAiData s id score feedback = s := by
  unfold updateStudentScore updateStudentAiData
  rw [h]
  exact ⟨rfl, rfl⟩

/-- C3, witness: both mutators applied to the initial state at the absent
id `"x"`. -/
theorem update_absent_id_noop_witness :
    initialState.students "x" = none ∧
    updateStudentScore initialState "x" 0 = initialState ∧
    updateStudentAiData initialState "x" 0 "f" = initialState :=
  ⟨rfl,
   (update_absent_id_noop initialState "x" 0 "f" rfl).1,
   (update_absent_id_noop initialState "x" 0 "f" rfl).2⟩

/-- C4: `resetRound` empties the Response mapping, re-opens submissions and
resets the display to showing-prompt, while prompt, max-score and room code
are unchanged. -/
theorem resetRound_spec (s : GameState) :
    (resetRound s).students = emptyStudents ∧
    (resetRound s).isAcceptingAnswers = true ∧
    (resetRound s).projectorDisplay =
      { type := DisplayType.prompt, contentId := none } ∧
    (resetRound s).prompt = s.prompt ∧
    (resetRound s).maxScore = s.maxScore ∧
    (resetRound s).roomCode = s.roomCode :=
  ⟨rfl, rfl, rfl, rfl, rfl, rfl⟩

/-- C5: from a state with an assigned room code, `startNewClass` (with the
freshly drawn code as oracle input) yields a state whose room code is the
fresh value — distinct from the previous code whenever the draw does not
collide — and whose Response mapping is empty. -/
theorem startNewClass_fresh_code (s : GameState) (prev fresh : String)
    (hprev : s.roomCode = some prev) (hne : fresh ≠ prev) :
    (startNewClass s fresh).roomCode = some fresh ∧
    (startNewClass s fresh).roomCode ≠ s.roomCode ∧
    (∀ k, (startNewClass s fresh).students k = none) := by
  refine ⟨rfl, ?_, fun k => rfl⟩
  rw [hprev]
  intro hc
  exact hne (Option.some.inj hc)

/-- C5, witness: starting a new class from room `"AAAA"` with fresh draw
`"BBBB"`. -/
theorem startNewClass_fresh_code_witness :
    wHostState.roomCode = some "AAAA" ∧
    ("BBBB" : String) ≠ "AAAA" ∧
    (startNewClass wHostState "BBBB").roomCode = some "BBBB" ∧
    (startNewClass wHostState "BBBB").students "a" = none :=
  ⟨rfl, by decide,
   (startNewClass_fresh_code wHostState "AAAA" "BBBB" rfl (by decide)).1,
   (startNewClass_fresh_code wHostState "AAAA" "BBBB" rfl (by decide)).2.2 "a"⟩

/-- C6: after `toggleAccepting false` the accepting flag is down, yet a
`SUBMIT_ANSWER` message handled by the host is still recorded: the mapping
gains the new entry regardless of the flag. -/
theorem submit_recorded_when_not_accepting (s : GameState) (name text : String)
    (now : Nat) (rand : String) (_hne : text ≠ "") :
    (toggleAccepting s false).isAcceptingAnswers = false ∧
    (handleMessage true (toggleAccepting s false)
        (NetworkMessage.submitAnswer name text) now rand).students
        (makeResponseId name now rand) =
      some { id := makeResponseId name now rand
             studentName := name
             text := text
             submittedAt := now
             score := none
             aiFeedback := none
             aiSuggestedScore := none } := by
  refine ⟨rfl, ?_⟩
  simp [handleMessage, addAnswerInternal, setStudent]

/-- C6, witness: a non-empty submission from `"Alex"` recorded while the
accepting flag is false. -/
theorem submit_recorded_when_not_accepting_witness :
    ("hi" : String) ≠ "" ∧
    (handleMessage true (toggleAccepting initialState false)
        (NetworkMessage.submitAnswer "Alex" "hi") 5 "abcde").students
        (makeResponseId "Alex" 5 "abcde") =
      some { id := makeResponseId "Alex" 5 "abcde"
             studentName := "Alex"
             text := "hi"
             submittedAt := 5
             score := none
             aiFeedback := none
             aiSuggestedScore := none } :=
  ⟨by decide,
   (submit_recorded_when_not_accepting initialState "Alex" "hi" 5 "abcde"
      (by decide)).2⟩

/-- C7, counterexample: two calls with the same submitter name and the same
timestamp but different random draws return different ids — the id is not
determined by name and timestamp alone. -/
theorem responseId_differs_same_name_time :
    (addAnswerInternal initialState "Alex" "hi" 100 "aaaaa").2 ≠
    (addAnswerInternal initialState "Alex" "hi" 100 "bbbbb").2 := by
  decide

/-- C7, amended: the generated id is a deterministic function of the
submitter name, the timestamp and the freshly drawn random suffix: with the
same name and timestamp, two calls yield the same id exactly when the random
suffixes coincide. -/
theorem responseId_deterministic_in_rand (name : String) (now : Nat)
    (r1 r2 : String) :
    makeResponseId name now r1 = makeResponseId name now r2 ↔ r1 = r2 := by
  unfold makeResponseId
  constructor
  · intro h
    exact string_append_cancel_left _ _ _ h
  · intro h
    rw [h]

/-- C8: receiving `RESET_FORM` leaves the follower's replica untouched, and
receiving it twice has exactly the effect of receiving it once. -/
theorem resetForm_idempotent (v : FollowerView) :
    (followerReceive v NetworkMessage.resetForm).state = v.state ∧
    followerReceive (followerReceive v NetworkMessage.resetForm)
        NetworkMessage.resetForm =
      followerReceive v NetworkMessage.resetForm :=
  ⟨rfl, rfl⟩

/-- C9: on a present id, `updateStudentAiData` rewrites only the two advisory
AI fields of that Response — its `score` (and every other field) is kept —
and every other entry of the mapping, as well as every other field of the
document, is unchanged. -/
theorem updateAiData_frame (s : GameState) (id : String) (score : Int)
    (feedback : String) (r : StudentResponse) (h : s.students id = some r) :
    (updateStudentAiData s id score feedback).students id =
      some { r with aiSuggestedScore := some score, aiFeedback := some feedback } ∧
    ({ r with aiSuggestedScore := some score,
              aiFeedback := some feedback } : StudentResponse).score = r.score ∧
    (∀ k, k ≠ id →
      (updateStudentAiData s id score feedback).students k = s.students k) ∧
    (updateStudentAiData s id score feedback).prompt = s.prompt ∧
    (updateStudentAiData s id score feedback).maxScore = s.maxScore ∧
    (updateStudentAiData s id score feedback).roomCode = s.roomCode ∧
    (updateStudentAiData s id score feedback).isAcceptingAnswers =
      s.isAcceptingAnswers ∧
    (updateStudentAiData s id score feedback).projectorDisplay =
      s.projectorDisplay := by
  unfold updateStudentAiData
  rw [h]
  refine ⟨?_, rfl, ?_, rfl, rfl, rfl, rfl, rfl⟩
  · simp [setStudent]
  · intro k hk
    simp [setStudent, hk]

/-- C9, witness: AI data written onto the graded fixture response keeps its
score and its neighbours. -/
theorem updateAiData_frame_witness :
    wState.students "a" = some wResp ∧
    (updateStudentAiData wState "a" 2 "good").students "a" =
      some { wResp with aiSuggestedScore := some 2, aiFeedback := some "good" } ∧
    (updateStudentAiData wState "a" 2 "good").students "b" =
      wState.students "b" :=
  ⟨by decide,
   (updateAiData_frame wState "a" 2 "good" wResp (by decide)).1,
   (updateAiData_frame wState "a" 2 "good" wResp (by decide)).2.2.1 "b"
     (by decide)⟩

/-- C10: a non-host `handleMessage` is a no-op for every incoming message;
the follower data handler either leaves the replica untouched or replaces it
wholesale with a `SYNC_STATE` payload; and a non-host storage event either
leaves the document untouched or replaces it wholesale with the stored
payload. -/
theorem follower_no_local_apply (s : GameState) (msg : NetworkMessage)
    (now : Nat) (rand : String) (d : String) (key : String)
    (nv : Option GameState) :
    handleMessage false s msg now rand = s ∧
    ((followerReceive ⟨s, d⟩ msg).state = s ∨
      ∃ doc, msg = NetworkMessage.syncState doc ∧
        (followerReceive ⟨s, d⟩ msg).state = doc) ∧
    (storageEventApply false s key nv = s ∨
      ∃ doc, nv = some doc ∧ storageEventApply false s key nv = doc) := by
  refine ⟨rfl, ?_, ?_⟩
  · cases msg with
    | syncState doc => exact Or.inr ⟨doc, rfl, rfl⟩
    | submitAnswer name text => exact Or.inl rfl
    | joinRequest name => exact Or.inl rfl
    | resetForm => exact Or.inl rfl
  · unfold storageEventApply
    by_cases hk : key = STORAGE_KEY
    · rw [if_pos hk]
      cases nv with
      | some doc => exact Or.inr ⟨doc, rfl, rfl⟩
      | none => exact Or.inl rfl
    · rw [if_neg hk]
      exact Or.inl rfl

end OwnWordsWiz
